import Mathlib

/-!
Verification of the Team Requirement Analyzer (src/team_size.py).

The computation core (lines 141-167 of team_size.py) is a linear pipeline
of closed-form arithmetic over the sidebar inputs.  We embed it shallowly
over the rationals: every Python float expression becomes the same
expression over ℚ (the decimal literals 11.8, 0.11, 0.78 are read as the
exact rationals they denote), Python `int()` truncation becomes `pyInt`,
and Python `x % 1` on the non-negative reals arising here becomes `pyMod1`.
-/

namespace TeamSize

/-- The flat input record gathered by the sidebar widgets
(team_size.py lines 45-135). -/
structure Inputs where
  loan_amt_current : ℚ
  pf_percentage : ℚ
  roi_per_day : ℚ
  avg_ticket_size : ℚ
  avg_tenure : ℚ
  no_of_days : ℚ
  loan_amt_t1 : ℚ
  loan_amt_t2 : ℚ
  sanction_sales_target : ℚ
  collection_target : ℚ
deriving DecidableEq

/-- team_size.py line 141: `pf_amount = (pf_percentage / 100) * loan_amt_current`. -/
def pf_amount (i : Inputs) : ℚ := (i.pf_percentage / 100) * i.loan_amt_current

/-- team_size.py line 142: `amt_in_bank = loan_amt_current - pf_amount`. -/
def amt_in_bank (i : Inputs) : ℚ := i.loan_amt_current - pf_amount i

/-- team_size.py line 145:
`repayment_amt = loan_amt_current + (loan_amt_current * (roi_per_day / 100) * avg_tenure)`. -/
def repayment_amt (i : Inputs) : ℚ :=
  i.loan_amt_current + (i.loan_amt_current * (i.roi_per_day / 100) * i.avg_tenure)

/-- team_size.py line 148: `no_of_loans = loan_amt_current / avg_ticket_size`. -/
def no_of_loans (i : Inputs) : ℚ := i.loan_amt_current / i.avg_ticket_size

/-- team_size.py line 151:
`no_sanction_sales = (loan_amt_current / no_of_days) / sanction_sales_target`. -/
def no_sanction_sales (i : Inputs) : ℚ :=
  (i.loan_amt_current / i.no_of_days) / i.sanction_sales_target

/-- team_size.py line 154: `interest_current = loan_amt_current * (roi_per_day / 100) * avg_tenure`. -/
def interest_current (i : Inputs) : ℚ :=
  i.loan_amt_current * (i.roi_per_day / 100) * i.avg_tenure

/-- team_size.py line 155: `interest_t1 = loan_amt_t1 * (roi_per_day / 100) * avg_tenure`. -/
def interest_t1 (i : Inputs) : ℚ :=
  i.loan_amt_t1 * (i.roi_per_day / 100) * i.avg_tenure

/-- team_size.py line 156: `interest_t2 = loan_amt_t2 * (roi_per_day / 100) * avg_tenure`. -/
def interest_t2 (i : Inputs) : ℚ :=
  i.loan_amt_t2 * (i.roi_per_day / 100) * i.avg_tenure

/-- team_size.py line 159: `collection_current = (loan_amt_current + interest_current) * 0.11`. -/
def collection_current (i : Inputs) : ℚ :=
  (i.loan_amt_current + interest_current i) * (11 / 100)

/-- team_size.py line 160: `collection_t1 = (loan_amt_t1 + interest_t1) * 0.78`. -/
def collection_t1 (i : Inputs) : ℚ :=
  (i.loan_amt_t1 + interest_t1 i) * (78 / 100)

/-- team_size.py line 161: `collection_t2 = (loan_amt_t2 + interest_t2) * 0.11`. -/
def collection_t2 (i : Inputs) : ℚ :=
  (i.loan_amt_t2 + interest_t2 i) * (11 / 100)

/-- team_size.py line 164:
`total_collection_required = collection_current + collection_t1 + collection_t2`. -/
def total_collection_required (i : Inputs) : ℚ :=
  collection_current i + collection_t1 i + collection_t2 i

/-- team_size.py line 167: `no_collection = total_collection_required / collection_target`. -/
def no_collection (i : Inputs) : ℚ := total_collection_required i / i.collection_target

/-- Python `int(x)`: truncation toward zero. -/
def pyInt (q : ℚ) : ℤ := if 0 ≤ q then ⌊q⌋ else ⌈q⌉

/-- Python `x % 1` (the remainder takes the sign of the divisor, so this is
`x - floor x` for every real `x`). -/
def pyMod1 (q : ℚ) : ℚ := q - ⌊q⌋

/-- The headcount rounding idiom `int(x) + (1 if x % 1 > 0 else 0)` used at
team_size.py lines 198, 214, 224, 289 and 290. -/
def roundedStaff (q : ℚ) : ℤ := pyInt q + (if 0 < pyMod1 q then 1 else 0)

/-- The "Total Staff Required" metric tile, team_size.py line 198:
`int(no_sanction_sales) + (1 if no_sanction_sales % 1 > 0 else 0)
 + int(no_collection) + (1 if no_collection % 1 > 0 else 0)`. -/
def total_staff_tile (i : Inputs) : ℤ :=
  pyInt (no_sanction_sales i) + (if 0 < pyMod1 (no_sanction_sales i) then 1 else 0)
    + pyInt (no_collection i) + (if 0 < pyMod1 (no_collection i) then 1 else 0)

/-- team_size.py line 289: the 'Sanction & Sales' entry of the `team_rounded` dict. -/
def team_rounded_sanction (i : Inputs) : ℤ := roundedStaff (no_sanction_sales i)

/-- team_size.py line 290: the 'Collection' entry of the `team_rounded` dict. -/
def team_rounded_collection (i : Inputs) : ℤ := roundedStaff (no_collection i)

/-- `sum(team_rounded.values())`, the total shown in the summary table
(line 373) and the text report (line 417). -/
def summary_total_staff (i : Inputs) : ℤ :=
  team_rounded_sanction i + team_rounded_collection i

/-- The bundled output record of one computation pass
(team_size.py lines 141-167 plus the rounded headcounts). -/
structure Outputs where
  pf_amount : ℚ
  amt_in_bank : ℚ
  repayment_amt : ℚ
  no_of_loans_display : ℤ
  no_sanction_sales : ℚ
  interest_current : ℚ
  interest_t1 : ℚ
  interest_t2 : ℚ
  collection_current : ℚ
  collection_t1 : ℚ
  collection_t2 : ℚ
  total_collection_required : ℚ
  no_collection : ℚ
  sanction_rounded : ℤ
  collection_rounded : ℤ
  total_staff : ℤ
deriving DecidableEq

/-- One full computation pass over the input record. -/
def computeOutputs (i : Inputs) : Outputs where
  pf_amount := pf_amount i
  amt_in_bank := amt_in_bank i
  repayment_amt := repayment_amt i
  no_of_loans_display := pyInt (no_of_loans i)
  no_sanction_sales := no_sanction_sales i
  interest_current := interest_current i
  interest_t1 := interest_t1 i
  interest_t2 := interest_t2 i
  collection_current := collection_current i
  collection_t1 := collection_t1 i
  collection_t2 := collection_t2 i
  total_collection_required := total_collection_required i
  no_collection := no_collection i
  sanction_rounded := team_rounded_sanction i
  collection_rounded := team_rounded_collection i
  total_staff := total_staff_tile i

/-- The widget bounds of team_size.py lines 45-135: every `min_value` /
`max_value` constraint the sidebar enforces before the computation runs. -/
def validInput (i : Inputs) : Prop :=
  0 ≤ i.loan_amt_current ∧ 0 ≤ i.pf_percentage ∧ i.pf_percentage ≤ 100 ∧
  0 ≤ i.roi_per_day ∧ i.roi_per_day ≤ 10 ∧ 1 ≤ i.avg_ticket_size ∧
  1 ≤ i.avg_tenure ∧ 1 ≤ i.no_of_days ∧ i.no_of_days ≤ 31 ∧
  0 ≤ i.loan_amt_t1 ∧ 0 ≤ i.loan_amt_t2 ∧
  1 ≤ i.sanction_sales_target ∧ 1 ≤ i.collection_target

instance (i : Inputs) : Decidable (validInput i) := by
  unfold validInput; infer_instance

/-- All four divisors used by the pipeline are positive. -/
def divisorsPositive (i : Inputs) : Prop :=
  0 < i.avg_ticket_size ∧ 0 < i.no_of_days ∧
  0 < i.sanction_sales_target ∧ 0 < i.collection_target

instance (i : Inputs) : Decidable (divisorsPositive i) := by
  unfold divisorsPositive; infer_instance

/-- Modelled from the spec: the source has no standalone entry point with an
explicit `InvalidInput` raise — non-positive divisors are kept out by the
sidebar widget minimums (team_size.py lines 72-135) — so the guarded core the
spec describes in its error-handling design is modelled here: it fails with
`InvalidInput` when any divisor (ticket size, days-in-month, sanction target,
collection target) is non-positive, and otherwise runs the computation of
lines 141-167 unchanged. -/
def computeChecked (i : Inputs) : Except String Outputs :=
  if divisorsPositive i then .ok (computeOutputs i) else .error "InvalidInput"

/-- The default input record of the sidebar (the `value=` arguments of
team_size.py lines 45-135). -/
def defaultInputs : Inputs where
  loan_amt_current := 10000000
  pf_percentage := 118 / 10
  roi_per_day := 1
  avg_ticket_size := 30000
  avg_tenure := 25
  no_of_days := 30
  loan_amt_t1 := 8000000
  loan_amt_t2 := 5000000
  sanction_sales_target := 250000
  collection_target := 8000000

/-- The default record with the current-month disbursement set to zero
(reachable: the widget at line 47 allows `min_value=0.0`). -/
def zeroDisbursement : Inputs := { defaultInputs with loan_amt_current := 0 }

/-- The default record with a zero ticket size; the sidebar widget at
line 74 rejects it (`min_value=1.0`), so it must fail the guarded core. -/
def badInputs : Inputs := { defaultInputs with avg_ticket_size := 0 }

/-- For a non-negative argument Python `int()` truncation is the floor. -/
lemma pyInt_eq_floor (q : ℚ) (h : 0 ≤ q) : pyInt q = ⌊q⌋ := if_pos h

/-- On a non-negative argument the floor-plus-conditional-increment idiom
computes the ceiling. -/
lemma roundedStaff_eq_ceil (q : ℚ) (h : 0 ≤ q) : roundedStaff q = ⌈q⌉ := by
  unfold roundedStaff pyInt pyMod1
  rw [if_pos h]
  by_cases hf : 0 < q - (⌊q⌋ : ℚ)
  · rw [if_pos hf, eq_comm, Int.ceil_eq_iff]
    refine ⟨by push_cast; linarith, by push_cast; linarith [Int.lt_floor_add_one q]⟩
  · rw [if_neg hf, add_zero, eq_comm, Int.ceil_eq_iff]
    have h1 : (⌊q⌋ : ℚ) ≤ q := Int.floor_le q
    have h2 : q - (⌊q⌋ : ℚ) ≤ 0 := not_lt.mp hf
    exact ⟨by linarith, by linarith⟩

/-- The inline metric-tile expression is the sum of the two rounded
headcounts. -/
lemma total_staff_tile_eq (i : Inputs) :
    total_staff_tile i = roundedStaff (no_sanction_sales i) + roundedStaff (no_collection i) := by
  unfold total_staff_tile roundedStaff
  ring

/-- C1: on the default input record the pipeline yields fee 1,180,000, bank
amount 8,820,000, 333 loans, repayment 12,500,000, interest 2,500,000 /
2,000,000 / 1,250,000, collections 1,375,000 / 7,800,000 / 687,500, total
collection 9,862,500, rounded headcounts 2 and 2, and total headcount 4. -/
theorem default_scenario :
    pf_amount defaultInputs = 1180000 ∧
    amt_in_bank defaultInputs = 8820000 ∧
    pyInt (no_of_loans defaultInputs) = 333 ∧
    repayment_amt defaultInputs = 12500000 ∧
    interest_current defaultInputs = 2500000 ∧
    interest_t1 defaultInputs = 2000000 ∧
    interest_t2 defaultInputs = 1250000 ∧
    collection_current defaultInputs = 1375000 ∧
    collection_t1 defaultInputs = 7800000 ∧
    collection_t2 defaultInputs = 687500 ∧
    total_collection_required defaultInputs = 9862500 ∧
    team_rounded_sanction defaultInputs = 2 ∧
    team_rounded_collection defaultInputs = 2 ∧
    total_staff_tile defaultInputs = 4 := by
  have hns : no_sanction_sales defaultInputs = 4 / 3 := by
    norm_num [no_sanction_sales, defaultInputs]
  have htc : total_collection_required defaultInputs = 9862500 := by
    norm_num [total_collection_required, collection_current, collection_t1, collection_t2,
      interest_current, interest_t1, interest_t2, defaultInputs]
  have hnc : no_collection defaultInputs = 789 / 640 := by
    rw [no_collection, htc]; norm_num [defaultInputs]
  have hnl : no_of_loans defaultInputs = 1000 / 3 := by
    norm_num [no_of_loans, defaultInputs]
  have c1 : ⌈(4 / 3 : ℚ)⌉ = 2 := by rw [Int.ceil_eq_iff]; norm_num
  have c2 : ⌈(789 / 640 : ℚ)⌉ = 2 := by rw [Int.ceil_eq_iff]; norm_num
  have f3 : ⌊(1000 / 3 : ℚ)⌋ = 333 := by rw [Int.floor_eq_iff]; norm_num
  refine ⟨?_, ?_, ?_, ?_, ?_, ?_, ?_, ?_, ?_, ?_, htc, ?_, ?_, ?_⟩
  · norm_num [pf_amount, defaultInputs]
  · norm_num [amt_in_bank, pf_amount, defaultInputs]
  · rw [hnl, pyInt_eq_floor _ (by norm_num), f3]
  · norm_num [repayment_amt, defaultInputs]
  · norm_num [interest_current, defaultInputs]
  · norm_num [interest_t1, defaultInputs]
  · norm_num [interest_t2, defaultInputs]
  · norm_num [collection_current, interest_current, defaultInputs]
  · norm_num [collection_t1, interest_t1, defaultInputs]
  · norm_num [collection_t2, interest_t2, defaultInputs]
  · rw [team_rounded_sanction, hns, roundedStaff_eq_ceil _ (by norm_num), c1]
  · rw [team_rounded_collection, hnc, roundedStaff_eq_ceil _ (by norm_num), c2]
  · rw [total_staff_tile_eq, hns, hnc, roundedStaff_eq_ceil _ (by norm_num),
      roundedStaff_eq_ceil _ (by norm_num), c1, c2]
    norm_num

/-- C2: for every input record the collection amounts are
(principal + interest) times 11%, 78% and 11% respectively, each period's
interest being D * (daily_rate/100) * tenure with the same rate and tenure,
and those computation weights differ from the displayed 10%/75%/15% labels. -/
theorem collection_weights (i : Inputs) :
    collection_current i =
      (i.loan_amt_current + i.loan_amt_current * (i.roi_per_day / 100) * i.avg_tenure) * (11 / 100) ∧
    collection_t1 i =
      (i.loan_amt_t1 + i.loan_amt_t1 * (i.roi_per_day / 100) * i.avg_tenure) * (78 / 100) ∧
    collection_t2 i =
      (i.loan_amt_t2 + i.loan_amt_t2 * (i.roi_per_day / 100) * i.avg_tenure) * (11 / 100) ∧
    interest_current i = i.loan_amt_current * (i.roi_per_day / 100) * i.avg_tenure ∧
    interest_t1 i = i.loan_amt_t1 * (i.roi_per_day / 100) * i.avg_tenure ∧
    interest_t2 i = i.loan_amt_t2 * (i.roi_per_day / 100) * i.avg_tenure ∧
    ((11 : ℚ) / 100 ≠ 10 / 100 ∧ (78 : ℚ) / 100 ≠ 75 / 100 ∧ (11 : ℚ) / 100 ≠ 15 / 100) :=
  ⟨rfl, rfl, rfl, rfl, rfl, rfl, by norm_num⟩

/-- C3: for every non-negative exact headcount x and every input record, the
rounding idiom yields the ceiling of x; it is floor(x)+1 when x has positive
fractional part and x itself when x is whole; and the metric-tile total is
the sum of the rounded sanction and collection headcounts. -/
theorem rounding_is_ceiling (x : ℚ) (i : Inputs) (hx : 0 ≤ x) :
    roundedStaff x = ⌈x⌉ ∧
    (0 < x - (⌊x⌋ : ℚ) → roundedStaff x = ⌊x⌋ + 1) ∧
    (x = (⌊x⌋ : ℚ) → (roundedStaff x : ℚ) = x) ∧
    total_staff_tile i = roundedStaff (no_sanction_sales i) + roundedStaff (no_collection i) := by
  refine ⟨roundedStaff_eq_ceil x hx, ?_, ?_, total_staff_tile_eq i⟩
  · intro h
    unfold roundedStaff pyInt pyMod1
    rw [if_pos hx, if_pos h]
  · intro h
    unfold roundedStaff pyInt pyMod1
    rw [if_pos hx, if_neg (by rw [← h]; simp)]
    push_cast
    linarith [h]

/-- Witness for the rounding rule at the default sanction headcount 4/3. -/
theorem rounding_is_ceiling_witness :
    roundedStaff (4 / 3) = ⌈(4 / 3 : ℚ)⌉ ∧
    (0 < (4 / 3 : ℚ) - (⌊(4 / 3 : ℚ)⌋ : ℚ) → roundedStaff (4 / 3) = ⌊(4 / 3 : ℚ)⌋ + 1) ∧
    ((4 / 3 : ℚ) = (⌊(4 / 3 : ℚ)⌋ : ℚ) → (roundedStaff (4 / 3) : ℚ) = 4 / 3) ∧
    total_staff_tile defaultInputs =
      roundedStaff (no_sanction_sales defaultInputs) + roundedStaff (no_collection defaultInputs) :=
  rounding_is_ceiling (4 / 3) defaultInputs (by norm_num)

/-- C4 counterexample: with a zero current-month disbursement (allowed by the
input widget) the repayment equals the disbursement even though both the rate
and the tenure are nonzero, so the claimed equivalence fails as stated. -/
theorem repayment_equality_cex :
    ¬ (∀ i : Inputs, 0 ≤ i.roi_per_day → 0 ≤ i.avg_tenure →
        (i.loan_amt_current ≤ repayment_amt i ∧
         (repayment_amt i = i.loan_amt_current ↔ i.roi_per_day = 0 ∨ i.avg_tenure = 0))) := by
  intro h
  have h0 := (h zeroDisbursement (by norm_num [zeroDisbursement, defaultInputs])
      (by norm_num [zeroDisbursement, defaultInputs])).2
  have h1 := h0.mp (by norm_num [repayment_amt, zeroDisbursement, defaultInputs])
  simp only [zeroDisbursement, defaultInputs] at h1
  rcases h1 with h | h <;> norm_num at h

/-- C4 amended: for non-negative disbursement, rate and tenure the repayment
is at least the disbursement, and when the disbursement is positive equality
holds exactly when the rate is zero or the tenure is zero. -/
theorem repayment_ge_disbursement (i : Inputs) (hD : 0 ≤ i.loan_amt_current)
    (hr : 0 ≤ i.roi_per_day) (ht : 0 ≤ i.avg_tenure) :
    i.loan_amt_current ≤ repayment_amt i ∧
    (0 < i.loan_amt_current →
      (repayment_amt i = i.loan_amt_current ↔ i.roi_per_day = 0 ∨ i.avg_tenure = 0)) := by
  unfold repayment_amt
  constructor
  · have hint : 0 ≤ i.loan_amt_current * (i.roi_per_day / 100) * i.avg_tenure :=
      mul_nonneg (mul_nonneg hD (div_nonneg hr (by norm_num))) ht
    linarith
  · intro hpos
    constructor
    · intro heq
      have hz : i.loan_amt_current * (i.roi_per_day / 100) * i.avg_tenure = 0 := by linarith
      rcases mul_eq_zero.mp hz with h | h
      · rcases mul_eq_zero.mp h with h | h
        · exact absurd h (ne_of_gt hpos)
        · rcases div_eq_zero_iff.mp h with h | h
          · exact Or.inl h
          · norm_num at h
      · exact Or.inr h
    · intro h
      rcases h with h | h <;> rw [h] <;> ring

/-- Witness for the amended repayment claim at the default inputs. -/
theorem repayment_ge_disbursement_witness :
    defaultInputs.loan_amt_current ≤ repayment_amt defaultInputs ∧
    (0 < defaultInputs.loan_amt_current →
      (repayment_amt defaultInputs = defaultInputs.loan_amt_current ↔
        defaultInputs.roi_per_day = 0 ∨ defaultInputs.avg_tenure = 0)) :=
  repayment_ge_disbursement defaultInputs (by norm_num [defaultInputs])
    (by norm_num [defaultInputs]) (by norm_num [defaultInputs])

/-- C5: for every non-negative disbursement and fee percentage in [0,100] the
fee amount equals D * p / 100 and fee plus net bank amount recovers D. -/
theorem fee_decomposition (i : Inputs) (_hD : 0 ≤ i.loan_amt_current)
    (_hp0 : 0 ≤ i.pf_percentage) (_hp1 : i.pf_percentage ≤ 100) :
    pf_amount i = i.loan_amt_current * i.pf_percentage / 100 ∧
    pf_amount i + amt_in_bank i = i.loan_amt_current := by
  unfold amt_in_bank pf_amount
  constructor <;> ring

/-- Witness for the fee decomposition at the default inputs. -/
theorem fee_decomposition_witness :
    0 ≤ defaultInputs.loan_amt_current ∧ 0 ≤ defaultInputs.pf_percentage ∧
    defaultInputs.pf_percentage ≤ 100 ∧
    (pf_amount defaultInputs = defaultInputs.loan_amt_current * defaultInputs.pf_percentage / 100 ∧
     pf_amount defaultInputs + amt_in_bank defaultInputs = defaultInputs.loan_amt_current) :=
  ⟨by norm_num [defaultInputs], by norm_num [defaultInputs], by norm_num [defaultInputs],
   fee_decomposition defaultInputs (by norm_num [defaultInputs]) (by norm_num [defaultInputs])
     (by norm_num [defaultInputs])⟩

/-- C6: for non-negative disbursement and positive ticket size the displayed
loan count is the floor of the quotient, obtained by truncation. -/
theorem loan_count_floor (i : Inputs) (hD : 0 ≤ i.loan_amt_current)
    (ht : 0 < i.avg_ticket_size) :
    pyInt (no_of_loans i) = ⌊i.loan_amt_current / i.avg_ticket_size⌋ := by
  unfold no_of_loans
  exact pyInt_eq_floor _ (div_nonneg hD (le_of_lt ht))

/-- Witness for the loan-count claim at the defaults, where the value is 333. -/
theorem loan_count_floor_witness :
    0 ≤ defaultInputs.loan_amt_current ∧ 0 < defaultInputs.avg_ticket_size ∧
    pyInt (no_of_loans defaultInputs) = ⌊defaultInputs.loan_amt_current / defaultInputs.avg_ticket_size⌋ :=
  ⟨by norm_num [defaultInputs], by norm_num [defaultInputs],
   loan_count_floor defaultInputs (by norm_num [defaultInputs]) (by norm_num [defaultInputs])⟩

/-- C7: the guarded core fails with an InvalidInput error whenever some
divisor is non-positive, and on every record satisfying the widget bounds it
raises no error and returns the computed outputs. -/
theorem invalid_input_guard (i : Inputs) :
    (¬ divisorsPositive i → computeChecked i = Except.error "InvalidInput") ∧
    (validInput i → computeChecked i = Except.ok (computeOutputs i)) := by
  constructor
  · intro h
    unfold computeChecked
    rw [if_neg h]
  · intro h
    obtain ⟨-, -, -, -, -, h6, -, h8, -, -, -, h12, h13⟩ := h
    have hd : divisorsPositive i :=
      ⟨by linarith, by linarith, by linarith, by linarith⟩
    unfold computeChecked
    rw [if_pos hd]

/-- Witness for the InvalidInput guard: a zero ticket size fails, the
default record succeeds. -/
theorem invalid_input_guard_witness :
    (¬ divisorsPositive badInputs ∧ computeChecked badInputs = Except.error "InvalidInput") ∧
    (validInput defaultInputs ∧
     computeChecked defaultInputs = Except.ok (computeOutputs defaultInputs)) := by
  have hbad : ¬ divisorsPositive badInputs := by
    norm_num [divisorsPositive, badInputs, defaultInputs]
  have hval : validInput defaultInputs := by
    norm_num [validInput, defaultInputs]
  exact ⟨⟨hbad, (invalid_input_guard badInputs).1 hbad⟩,
         ⟨hval, (invalid_input_guard defaultInputs).2 hval⟩⟩

/-- C8: the calculator is deterministic — two runs on identical input
records produce identical output records. -/
theorem deterministic (i j : Inputs) (h : i = j) :
    computeOutputs i = computeOutputs j := by
  rw [h]

/-- Witness for determinism at the default inputs. -/
theorem deterministic_witness :
    computeOutputs defaultInputs = computeOutputs defaultInputs :=
  deterministic defaultInputs defaultInputs rfl

/-- C9: the inline total of the metric tile (line 198) equals the
`sum(team_rounded.values())` total of the summary table and text report
(lines 288-291 and 373) on every input record. -/
theorem tile_matches_summary (i : Inputs) :
    total_staff_tile i = summary_total_staff i := by
  unfold total_staff_tile summary_total_staff team_rounded_sanction team_rounded_collection
    roundedStaff
  ring

/-- C10: the repayment amount minus the current disbursement is exactly the
reported current-month interest on every input record. -/
theorem repayment_minus_disbursement (i : Inputs) :
    repayment_amt i - i.loan_amt_current = interest_current i := by
  unfold repayment_amt interest_current
  ring

end TeamSize
